import Mathlib

/-!
The sqlite3go client layer, as a shallow embedding.

The Go package `sqlite3` is a thin layer over the native SQLite engine, reached
through cgo.  The engine is external; it is represented here by an `Engine`
record that answers every native call with a return code, possibly depending on
all the calls made so far.  The state threaded through the Go functions is the
`Trace` of native calls issued so far, each recorded with its return code.

Conventions:
* a Go `error` is `Option String` (`none` is `nil`);
* a native pointer is a `Nat`, `0` being the nil pointer;
* a Go `string` / `[]byte` holding data is a list of bytes;
* Go `int` and `int64` are 64-bit, C `int` is 32-bit; conversions wrap.
-/

namespace Sqlite3go

/-! ## Machine integers -/

/-- Conversion of an integer to a signed integer of `w` bits (two's complement wrap). -/
def wrapSigned (w : Nat) (v : Int) : Int :=
  (v + 2 ^ (w - 1)) % 2 ^ w - 2 ^ (w - 1)

/-- Go conversion `C.int(v)`: C `int` is 32 bits wide. -/
def cInt (v : Int) : Int := wrapSigned 32 v

/-- Go conversion `int(v)` / `int64(v)` / `C.sqlite3_int64(v)`: 64 bits wide. -/
def goInt (v : Int) : Int := wrapSigned 64 v

/-! ## Data crossing the boundary -/

abbrev Byte := Fin 256

/-- A Go `string` or `[]byte`: a sequence of bytes (zero bytes allowed). -/
abbrev Bytes := List Byte

/-- A native pointer; `0` is nil. -/
abbrev Ptr := Nat

/-- A Go `float32`, identified by its bit pattern. -/
structure Float32 where
  bits : Nat
  deriving DecidableEq, Repr

/-- A Go `float64` / C `double`: either given by its bit pattern or obtained by the
(exact) widening conversion `float64(v)` of a `float32`. -/
inductive Float64 where
  | ofBits (bits : Nat)
  | ofFloat32 (v : Float32)
  deriving DecidableEq, Repr

/-- `C.CString(s)`: a fresh buffer holding the bytes of `s` followed by a zero byte. -/
def CString (s : Bytes) : Bytes := s ++ [0]

/-- `C.GoString(p)`: the bytes of the buffer at `p` up to (excluding) the first zero byte. -/
def GoString (buf : Bytes) : Bytes := buf.takeWhile (fun b => b != 0)

/-- `C.GoBytes(p, n)`: the first `n` bytes of the buffer at `p`. -/
def GoBytes (buf : Bytes) (n : Int) : Bytes := buf.take n.toNat

/-! ## Native calls, engine, trace -/

/-- The native calls with an effect on the engine, with their arguments. -/
inductive Call where
  | close (db : Ptr)
  | exec (db : Ptr) (sql : String)
  | prepare (db : Ptr) (sql : String)
  | db_config (db : Ptr) (op : Int) (value : Int)
  | bind_int (stmt : Ptr) (index : Int) (value : Int)
  | bind_int64 (stmt : Ptr) (index : Int) (value : Int)
  | bind_double (stmt : Ptr) (index : Int) (value : Float64)
  | bind_text (stmt : Ptr) (index : Int) (buf : Bytes) (n : Int)
  | bind_blob (stmt : Ptr) (index : Int) (buf : Bytes) (n : Int)
  | bind_null (stmt : Ptr) (index : Int)
  | step (stmt : Ptr)
  | reset (stmt : Ptr)
  | finalize (stmt : Ptr)
  deriving DecidableEq, Repr

/-- One native call together with the return code the engine gave. -/
structure Event where
  call : Call
  rc : Int
  deriving DecidableEq, Repr

abbrev Trace := List Event

/-- The engine behind the boundary.  Every answer may depend on the whole history. -/
structure Engine where
  /-- return code of a call, given the calls made so far -/
  rc : Trace → Call → Int
  /-- `sqlite3_errmsg` of the connection -/
  errmsg : Trace → String
  /-- the message `sqlite3_exec` stores through its `errmsg` out-parameter -/
  exec_errmsg : Trace → String
  /-- the statement handle `sqlite3_prepare_v2` stores through its out-parameter -/
  stmt_handle : Trace → Ptr
  /-- `sqlite3_bind_parameter_count` of the statement compiled from a SQL text -/
  bind_parameter_count : String → Nat
  /-- `sqlite3_column_int` of a column of the current row of a statement (a C `int`) -/
  column_int : Trace → Ptr → Int → Int
  /-- `sqlite3_column_int64` (a 64-bit integer) -/
  column_int64 : Trace → Ptr → Int → Int
  /-- `sqlite3_column_text`: the buffer the returned pointer points to -/
  column_text : Trace → Ptr → Int → Bytes
  /-- `sqlite3_column_bytes`: the size of the column in bytes -/
  column_bytes : Trace → Ptr → Int → Int
  /-- `sqlite3_column_blob`: the buffer the returned pointer points to -/
  column_blob : Trace → Ptr → Int → Bytes

def SQLITE_OK : Int := 0
def SQLITE_BUSY : Int := 5
def SQLITE_ROW : Int := 100
def SQLITE_DONE : Int := 101

/-- Issue one native call: ask the engine for the return code and record the event. -/
def native (eng : Engine) (t : Trace) (c : Call) : Int × Trace :=
  (eng.rc t c, t ++ [⟨c, eng.rc t c⟩])

/-- Result of a Go function that may panic instead of returning. -/
inductive Outcome (α : Type) where
  | ret (val : α) (t : Trace)
  | panic (t : Trace)
  | undefined
  deriving DecidableEq, Repr

abbrev GoError := Option String

/-! ## sqlite3.go: connection -/

structure SQLite3 where
  db : Ptr
  deriving DecidableEq, Repr

/-- `func (s *SQLite3) Close()`: the second component is the line printed, if any. -/
def SQLite3.Close (eng : Engine) (s : SQLite3) (t : Trace) : Option String × Trace :=
  let (ret, t1) := native eng t (.close s.db)
  if ret ≠ SQLITE_OK then (some "Error closing database", t1) else (none, t1)

/-- `func (s *SQLite3) Exec(query string) error`. -/
def SQLite3.Exec (eng : Engine) (s : SQLite3) (query : String) (t : Trace) : GoError × Trace :=
  let (rc, t1) := native eng t (.exec s.db query)
  if rc ≠ SQLITE_OK then (some ("error executing query: " ++ eng.exec_errmsg t1), t1)
  else (none, t1)

/-! ### Configuration -/

abbrev Config := Int

def SQLITE_DBCONFIG_MAINDBNAME : Config := 1000 + 0
def SQLITE_DBCONFIG_LOOKASIDE : Config := 1000 + 1
def SQLITE_DBCONFIG_ENABLE_FKEY : Config := 1000 + 2
def SQLITE_DBCONFIG_ENABLE_TRIGGER : Config := 1000 + 3
def SQLITE_DBCONFIG_ENABLE_FTS3_TOKENIZER : Config := 1000 + 4
def SQLITE_DBCONFIG_ENABLE_LOAD_EXTENSION : Config := 1000 + 5
def SQLITE_DBCONFIG_NO_CKPT_ON_CLOSE : Config := 1000 + 6
def SQLITE_DBCONFIG_ENABLE_QPSG : Config := 1000 + 7
def SQLITE_DBCONFIG_TRIGGER_EQP : Config := 1000 + 8
def SQLITE_DBCONFIG_RESET_DATABASE : Config := 1000 + 9
def SQLITE_DBCONFIG_DEFENSIVE : Config := 1000 + 10
def SQLITE_DBCONFIG_WRITABLE_SCHEMA : Config := 1000 + 11
def SQLITE_DBCONFIG_LEGACY_ALTER_TABLE : Config := 1000 + 12
def SQLITE_DBCONFIG_DQS_DML : Config := 1000 + 13
def SQLITE_DBCONFIG_DQS_DDL : Config := 1000 + 14
def SQLITE_DBCONFIG_ENABLE_VIEW : Config := 1000 + 15
def SQLITE_DBCONFIG_LEGACY_FILE_FORMAT : Config := 1000 + 16
def SQLITE_DBCONFIG_TRUSTED_SCHEMA : Config := 1000 + 17
def SQLITE_DBCONFIG_STMT_SCANSTATUS : Config := 1000 + 18
def SQLITE_DBCONFIG_REVERSE_SCANORDER : Config := 1000 + 19
def SQLITE_DBCONFIG_MAX : Config := 1019

/-- The named option constants of the `const` block, in declaration order
(`SQLITE_DBCONFIG_MAX` last). -/
def namedConfigs : List Config :=
  [SQLITE_DBCONFIG_MAINDBNAME, SQLITE_DBCONFIG_LOOKASIDE, SQLITE_DBCONFIG_ENABLE_FKEY,
   SQLITE_DBCONFIG_ENABLE_TRIGGER, SQLITE_DBCONFIG_ENABLE_FTS3_TOKENIZER,
   SQLITE_DBCONFIG_ENABLE_LOAD_EXTENSION, SQLITE_DBCONFIG_NO_CKPT_ON_CLOSE,
   SQLITE_DBCONFIG_ENABLE_QPSG, SQLITE_DBCONFIG_TRIGGER_EQP, SQLITE_DBCONFIG_RESET_DATABASE,
   SQLITE_DBCONFIG_DEFENSIVE, SQLITE_DBCONFIG_WRITABLE_SCHEMA,
   SQLITE_DBCONFIG_LEGACY_ALTER_TABLE, SQLITE_DBCONFIG_DQS_DML, SQLITE_DBCONFIG_DQS_DDL,
   SQLITE_DBCONFIG_ENABLE_VIEW, SQLITE_DBCONFIG_LEGACY_FILE_FORMAT,
   SQLITE_DBCONFIG_TRUSTED_SCHEMA, SQLITE_DBCONFIG_STMT_SCANSTATUS,
   SQLITE_DBCONFIG_REVERSE_SCANORDER, SQLITE_DBCONFIG_MAX]

/-- `func (s *SQLite3) Config(config Config, value int) error`.
The native call goes through `sqlite3_db_config_helper`, which forwards to
`sqlite3_db_config`. -/
def SQLite3.Config (eng : Engine) (s : SQLite3) (config : Config) (value : Int) (t : Trace) :
    GoError × Trace :=
  if s.db = 0 then (some "database connection is not initialized", t)
  else if config < SQLITE_DBCONFIG_MAINDBNAME ∨ config > SQLITE_DBCONFIG_MAX then
    (some ("invalid configuration option: " ++ toString config), t)
  else if config = SQLITE_DBCONFIG_LOOKASIDE then
    (some "sqlite3_db_config with SQLITE_DBCONFIG_LOOKASIDE is not supported", t)
  else
    let (rc, t1) := native eng t (.db_config s.db (cInt config) (cInt value))
    if rc ≠ SQLITE_OK then (some ("sqlite3_db_config failed: " ++ toString rc), t1)
    else (none, t1)

/-! ## transactions.go -/

/-- `func (db *SQLite3) Begin() error`. -/
def SQLite3.Begin (eng : Engine) (db : SQLite3) (t : Trace) : GoError × Trace :=
  SQLite3.Exec eng db "BEGIN TRANSACTION" t

/-- `func (db *SQLite3) Commit() error`. -/
def SQLite3.Commit (eng : Engine) (db : SQLite3) (t : Trace) : GoError × Trace :=
  SQLite3.Exec eng db "COMMIT" t

/-- `func (db *SQLite3) Rollback() error`. -/
def SQLite3.Rollback (eng : Engine) (db : SQLite3) (t : Trace) : GoError × Trace :=
  SQLite3.Exec eng db "ROLLBACK" t

/-- `func (db *SQLite3) Transaction(fn func() error) error`.  The work `fn` is a
closure that may itself issue native calls: it maps the trace to its error and the
extended trace. -/
def SQLite3.Transaction (eng : Engine) (db : SQLite3) (fn : Trace → GoError × Trace)
    (t : Trace) : GoError × Trace :=
  match SQLite3.Begin eng db t with
  | (some err, t1) => (some err, t1)
  | (none, t1) =>
    match fn t1 with
    | (some err, t2) =>
      let (_, t3) := SQLite3.Rollback eng db t2
      (some err, t3)
    | (none, t2) => SQLite3.Commit eng db t2

/-! ## stmt.go: prepared statements -/

structure SQLite3Stmt where
  stmt : Ptr
  deriving DecidableEq, Repr

/-- `func (s *SQLite3Stmt) error() error` (the text is the same on every path). -/
def SQLite3Stmt.error (eng : Engine) (t : Trace) : GoError :=
  some ("error binding int: " ++ eng.errmsg t)

/-- `func (s *SQLite3Stmt) Step() (bool, error)`. -/
def SQLite3Stmt.Step (eng : Engine) (s : SQLite3Stmt) (t : Trace) : (Bool × GoError) × Trace :=
  let (rc, t1) := native eng t (.step s.stmt)
  if rc = SQLITE_ROW then ((true, none), t1)
  else if rc = SQLITE_DONE then ((false, none), t1)
  else ((false, SQLite3Stmt.error eng t1), t1)

/-- `func (s *SQLite3Stmt) Reset() error`. -/
def SQLite3Stmt.Reset (eng : Engine) (s : SQLite3Stmt) (t : Trace) : GoError × Trace :=
  let (rc, t1) := native eng t (.reset s.stmt)
  if rc ≠ SQLITE_OK then (SQLite3Stmt.error eng t1, t1) else (none, t1)

/-- `func (s *SQLite3Stmt) Finalize() error`. -/
def SQLite3Stmt.Finalize (eng : Engine) (s : SQLite3Stmt) (t : Trace) : GoError × Trace :=
  let (rc, t1) := native eng t (.finalize s.stmt)
  if rc ≠ SQLITE_OK then (SQLite3Stmt.error eng t1, t1) else (none, t1)

/-- `func (s *SQLite3Stmt) Close() error`. -/
def SQLite3Stmt.Close (eng : Engine) (s : SQLite3Stmt) (t : Trace) : GoError × Trace :=
  SQLite3Stmt.Finalize eng s t

/-- `func (s *SQLite3Stmt) BindInt(index int, value int) error`. -/
def SQLite3Stmt.BindInt (eng : Engine) (s : SQLite3Stmt) (index : Int) (value : Int)
    (t : Trace) : GoError × Trace :=
  let (rc, t1) := native eng t (.bind_int s.stmt (cInt index) (cInt value))
  if rc ≠ SQLITE_OK then (SQLite3Stmt.error eng t1, t1) else (none, t1)

/-- `func (s *SQLite3Stmt) BindInt64(index int, value int64) error`. -/
def SQLite3Stmt.BindInt64 (eng : Engine) (s : SQLite3Stmt) (index : Int) (value : Int)
    (t : Trace) : GoError × Trace :=
  let (rc, t1) := native eng t (.bind_int64 s.stmt (cInt index) (goInt value))
  if rc ≠ SQLITE_OK then (SQLite3Stmt.error eng t1, t1) else (none, t1)

/-- `func (s *SQLite3Stmt) BindFloat(index int, value float64) error`. -/
def SQLite3Stmt.BindFloat (eng : Engine) (s : SQLite3Stmt) (index : Int) (value : Float64)
    (t : Trace) : GoError × Trace :=
  let (rc, t1) := native eng t (.bind_double s.stmt (cInt index) value)
  if rc ≠ SQLITE_OK then (SQLite3Stmt.error eng t1, t1) else (none, t1)

/-- `func (s *SQLite3Stmt) BindText(index int, value string) error`. -/
def SQLite3Stmt.BindText (eng : Engine) (s : SQLite3Stmt) (index : Int) (value : Bytes)
    (t : Trace) : GoError × Trace :=
  let cValue := CString value
  let (rc, t1) := native eng t (.bind_text s.stmt (cInt index) cValue (cInt value.length))
  if rc ≠ SQLITE_OK then (SQLite3Stmt.error eng t1, t1) else (none, t1)

/-- `func (s *SQLite3Stmt) BindBlob(index int, value []byte) error`.
Taking the address of `value[0]` panics when `value` has no element. -/
def SQLite3Stmt.BindBlob (eng : Engine) (s : SQLite3Stmt) (index : Int) (value : Bytes)
    (t : Trace) : Outcome GoError :=
  match value with
  | [] => .panic t
  | _ :: _ =>
    let (rc, t1) := native eng t (.bind_blob s.stmt (cInt index) value (cInt value.length))
    if rc ≠ SQLITE_OK then .ret (SQLite3Stmt.error eng t1) t1 else .ret none t1

/-- `func (s *SQLite3Stmt) BindNull(index int) error`. -/
def SQLite3Stmt.BindNull (eng : Engine) (s : SQLite3Stmt) (index : Int)
    (t : Trace) : GoError × Trace :=
  let (rc, t1) := native eng t (.bind_null s.stmt (cInt index))
  if rc ≠ SQLITE_OK then (SQLite3Stmt.error eng t1, t1) else (none, t1)

/-- A Go function that cannot panic, seen as an `Outcome`. -/
def Outcome.ofPair {α : Type} (r : α × Trace) : Outcome α := .ret r.1 r.2

/-- An argument of the variadic `Exec`, by its dynamic type.  `other` stands for a
value of any type the type switch does not list; it carries what `%T` prints. -/
inductive Arg where
  | int (v : Int)
  | int64 (v : Int)
  | float64 (v : Float64)
  | float32 (v : Float32)
  | string (v : Bytes)
  | bytes (v : Bytes)
  | nil
  | bool (v : Bool)
  | other (typeName : String)
  deriving DecidableEq, Repr

/-- The types the type switch of `Exec` lists. -/
def Arg.supported : Arg → Bool
  | .other _ => false
  | _ => true

/-- One iteration of the `for i, arg := range args` loop of `Exec`: the type switch.
A result `ret (some err)` is the `return err` of the Go code; `ret none` goes on
to the next argument. -/
def SQLite3Stmt.execArg (eng : Engine) (s : SQLite3Stmt) (i : Nat) (arg : Arg) (t : Trace) :
    Outcome GoError :=
  match arg with
  | .int v => Outcome.ofPair (SQLite3Stmt.BindInt eng s ((i : Int) + 1) v t)
  | .int64 v => Outcome.ofPair (SQLite3Stmt.BindInt64 eng s ((i : Int) + 1) v t)
  | .float64 _ => .ret none t
  | .float32 v =>
    Outcome.ofPair (SQLite3Stmt.BindFloat eng s ((i : Int) + 1) (Float64.ofFloat32 v) t)
  | .string v => Outcome.ofPair (SQLite3Stmt.BindText eng s ((i : Int) + 1) v t)
  | .bytes v => SQLite3Stmt.BindBlob eng s ((i : Int) + 1) v t
  | .nil => Outcome.ofPair (SQLite3Stmt.BindNull eng s ((i : Int) + 1) t)
  | .bool v =>
    let intVal : Int := if v then 1 else 0
    Outcome.ofPair (SQLite3Stmt.BindInt eng s ((i : Int) + 1) intVal t)
  | .other typeName => .ret (some ("unsupported type " ++ typeName)) t

/-- The `for i, arg := range args` loop of `Exec`, from index `i` on. -/
def SQLite3Stmt.execArgs (eng : Engine) (s : SQLite3Stmt) :
    Nat → List Arg → Trace → Outcome GoError
  | _, [], t => .ret none t
  | i, arg :: rest, t =>
    match SQLite3Stmt.execArg eng s i arg t with
    | .ret none t1 => SQLite3Stmt.execArgs eng s (i + 1) rest t1
    | r => r

/-- `func (s *SQLite3Stmt) Exec(args ...interface{}) error`. -/
def SQLite3Stmt.Exec (eng : Engine) (s : SQLite3Stmt) (args : List Arg) (t : Trace) :
    Outcome GoError :=
  match SQLite3Stmt.execArgs eng s 0 args t with
  | .ret none t1 =>
    match SQLite3Stmt.Step eng s t1 with
    | ((_, some err), t2) => .ret (some err) t2
    | ((_, none), t2) => Outcome.ofPair (SQLite3Stmt.Reset eng s t2)
  | r => r

/-! ### Column getters -/

/-- `func (s *SQLite3Stmt) ColumnInt(index int) int`. -/
def SQLite3Stmt.ColumnInt (eng : Engine) (s : SQLite3Stmt) (index : Int) (t : Trace) : Int :=
  goInt (eng.column_int t s.stmt (cInt index))

/-- `func (s *SQLite3Stmt) ColumnBool(index int) bool`. -/
def SQLite3Stmt.ColumnBool (eng : Engine) (s : SQLite3Stmt) (index : Int) (t : Trace) : Bool :=
  eng.column_int t s.stmt (cInt index) == 1

/-- `func (s *SQLite3Stmt) ColumnInt64(index int) int64`. -/
def SQLite3Stmt.ColumnInt64 (eng : Engine) (s : SQLite3Stmt) (index : Int) (t : Trace) : Int :=
  goInt (eng.column_int64 t s.stmt (cInt index))

/-- `func (s *SQLite3Stmt) ColumnText(index int) string`. -/
def SQLite3Stmt.ColumnText (eng : Engine) (s : SQLite3Stmt) (index : Int) (t : Trace) : Bytes :=
  GoString (eng.column_text t s.stmt (cInt index))

/-- `func (s *SQLite3Stmt) ColumnBlob(index int) []byte` (`nil` is the empty list). -/
def SQLite3Stmt.ColumnBlob (eng : Engine) (s : SQLite3Stmt) (index : Int) (t : Trace) : Bytes :=
  let length := eng.column_bytes t s.stmt (cInt index)
  if length = 0 then []
  else GoBytes (eng.column_blob t s.stmt (cInt index)) length

/-! ## sqlite3.go: the bulk loader -/

/-- Control flow inside the C helper: fall through to the next statement, return
from the function with a code, or undefined behaviour (a read past the end of the
`values` array). -/
inductive Flow where
  | next (t : Trace)
  | ret (rc : Int) (t : Trace)
  | ub
  deriving DecidableEq, Repr

/-- The inner loop `for (int j = 0; j < num_cols; j++)` of `bulk_insert`, from `j`
on with `fuel` iterations left; `values` is the C array of C strings. -/
def bulk_insert_cols (eng : Engine) (db stmt : Ptr) (values : List Bytes)
    (i num_cols : Nat) : Nat → Nat → Trace → Flow
  | _, 0, t => .next t
  | j, fuel + 1, t =>
    match values[i * num_cols + j]? with
    | none => .ub
    | some v =>
      let (rc, t1) := native eng t (.bind_text stmt ((j : Int) + 1) v (-1))
      if rc ≠ SQLITE_OK then
        let (_, t2) := native eng t1 (.finalize stmt)
        let (_, t3) := native eng t2 (.exec db "ROLLBACK")
        .ret rc t3
      else bulk_insert_cols eng db stmt values i num_cols (j + 1) fuel t1

/-- The outer loop `for (int i = 0; i < num_rows; i++)` of `bulk_insert`, from `i`
on with `fuel` iterations left. -/
def bulk_insert_rows (eng : Engine) (db : Ptr) (sql : String) (stmt : Ptr)
    (values : List Bytes) : Nat → Nat → Trace → Flow
  | _, 0, t => .next t
  | i, fuel + 1, t =>
    let num_cols := eng.bind_parameter_count sql
    match bulk_insert_cols eng db stmt values i num_cols 0 num_cols t with
    | .next t1 =>
      let (rc, t2) := native eng t1 (.step stmt)
      if rc ≠ SQLITE_DONE then
        let (_, t3) := native eng t2 (.finalize stmt)
        let (_, t4) := native eng t3 (.exec db "ROLLBACK")
        .ret rc t4
      else
        let (_, t3) := native eng t2 (.reset stmt)
        bulk_insert_rows eng db sql stmt values (i + 1) fuel t3
    | r => r

/-- The C helper
`int bulk_insert(sqlite3 *db, const char *sql, int num_rows, const char **values)`.
The result is the return code and the trace, or `none` for undefined behaviour. -/
def bulk_insert (eng : Engine) (db : Ptr) (sql : String) (num_rows : Int)
    (values : List Bytes) (t : Trace) : Option (Int × Trace) :=
  let (rc, t1) := native eng t (.prepare db sql)
  if rc ≠ SQLITE_OK then some (rc, t1)
  else
    let stmt := eng.stmt_handle t1
    let (_, t2) := native eng t1 (.exec db "BEGIN TRANSACTION")
    match bulk_insert_rows eng db sql stmt values 0 num_rows.toNat t2 with
    | .next t3 =>
      let (_, t4) := native eng t3 (.finalize stmt)
      let (_, t5) := native eng t4 (.exec db "COMMIT")
      some (SQLITE_OK, t5)
    | .ret rc3 t3 => some (rc3, t3)
    | .ub => none

/-- `func (s *SQLite3) BulkInsert(query string, values [][]string) error`.
Taking the address of `cValues[0]` panics when the flattened table is empty. -/
def SQLite3.BulkInsert (eng : Engine) (s : SQLite3) (query : String)
    (values : List (List Bytes)) (t : Trace) : Outcome GoError :=
  if values.length = 0 then .ret none t
  else
    let numRows := values.length
    let flatValues := values.flatten
    let cValues := flatValues.map CString
    match cValues with
    | [] => .panic t
    | _ :: _ =>
      match bulk_insert eng s.db query (cInt numRows) cValues t with
      | none => .undefined
      | some (rc, t1) =>
        if rc ≠ SQLITE_OK then .ret (some ("bulk insert failed: " ++ eng.errmsg t1)) t1
        else .ret none t1

/-! ## Concrete engines used to evaluate the code -/

/-- The value the engine keeps for a parameter after a bind call: `sqlite3_bind_text`
and `sqlite3_bind_blob` take `n` bytes, or the bytes before the first zero byte when
`n` is negative. -/
inductive Datum where
  | null
  | integer (v : Int)
  | real (v : Float64)
  | text (bytes : Bytes)
  | blob (bytes : Bytes)
  deriving DecidableEq, Repr

def boundDatum : Call → Option Datum
  | .bind_int _ _ v => some (.integer v)
  | .bind_int64 _ _ v => some (.integer v)
  | .bind_double _ _ v => some (.real v)
  | .bind_text _ _ buf n =>
    some (.text (if n < 0 then buf.takeWhile (fun b => b != 0) else buf.take n.toNat))
  | .bind_blob _ _ buf n => some (.blob (buf.take n.toNat))
  | .bind_null _ _ => some .null
  | _ => none

/-- The statement and parameter index a bind call addresses. -/
def bindTarget : Call → Option (Ptr × Int)
  | .bind_int s i _ => some (s, i)
  | .bind_int64 s i _ => some (s, i)
  | .bind_double s i _ => some (s, i)
  | .bind_text s i _ _ => some (s, i)
  | .bind_blob s i _ _ => some (s, i)
  | .bind_null s i => some (s, i)
  | _ => none

/-- The value last bound with success to parameter `index` of `stmt`, if any. -/
def lastBound? (stmt : Ptr) (index : Int) : Trace → Option Datum
  | [] => none
  | e :: rest =>
    match lastBound? stmt index rest with
    | some d => some d
    | none =>
      if e.rc = SQLITE_OK ∧ bindTarget e.call = some (stmt, index) then boundDatum e.call
      else none

/-- The value last bound with success to parameter `index` of `stmt`; an unbound
parameter is NULL. -/
def lastBound (stmt : Ptr) (index : Int) (t : Trace) : Datum :=
  (lastBound? stmt index t).getD .null

/-- An engine on which every call succeeds (`sqlite3_step` answers `SQLITE_DONE`),
whose statements have `n` placeholders and behave like `SELECT ?1, ?2, ...`: column
`i` of the current row is the value last bound to parameter `i + 1`, stored as it
was handed over.  Integer, text and blob cells are read back in their own class;
conversions between storage classes are left out (the answer is then 0 or empty). -/
def echoEngine (n : Nat) : Engine where
  rc := fun _ c => match c with
    | .step _ => SQLITE_DONE
    | _ => SQLITE_OK
  errmsg := fun _ => "not an error"
  exec_errmsg := fun _ => ""
  stmt_handle := fun _ => 1
  bind_parameter_count := fun _ => n
  column_int := fun t s i => match lastBound s (i + 1) t with
    | .integer v => wrapSigned 32 v
    | _ => 0
  column_int64 := fun t s i => match lastBound s (i + 1) t with
    | .integer v => v
    | _ => 0
  column_text := fun t s i => match lastBound s (i + 1) t with
    | .text b => b ++ [0]
    | _ => []
  column_bytes := fun t s i => match lastBound s (i + 1) t with
    | .text b => b.length
    | .blob b => b.length
    | _ => 0
  column_blob := fun t s i => match lastBound s (i + 1) t with
    | .text b => b
    | .blob b => b
    | _ => []

/-- The engine `echoEngine n`, except that `COMMIT` fails with `SQLITE_BUSY` (as
when another connection holds a lock on the database file at commit time). -/
def commitBusyEngine (n : Nat) : Engine :=
  { echoEngine n with
    rc := fun _ c => match c with
      | .step _ => SQLITE_DONE
      | .exec _ sql => if sql = "COMMIT" then SQLITE_BUSY else SQLITE_OK
      | _ => SQLITE_OK
    errmsg := fun _ => "database is locked"
    exec_errmsg := fun _ => "database is locked" }

/-! ## Sequences of release calls -/

/-- The number of times a native call `c` occurs in a trace. -/
def occurrences (c : Call) (t : Trace) : Nat :=
  (t.filter (fun e => e.call = c)).length

/-- The trace after `n` successive calls of `Close` on a connection. -/
def SQLite3.closeTimes (eng : Engine) (s : SQLite3) : Nat → Trace → Trace
  | 0, t => t
  | n + 1, t => SQLite3.closeTimes eng s n (SQLite3.Close eng s t).2

/-- The two release methods of a statement. -/
inductive StmtRelease where
  | Finalize
  | Close
  deriving DecidableEq, Repr

/-- The trace after a sequence of `Finalize` / `Close` calls on a statement. -/
def SQLite3Stmt.releaseAll (eng : Engine) (s : SQLite3Stmt) : List StmtRelease → Trace → Trace
  | [], t => t
  | .Finalize :: rest, t => SQLite3Stmt.releaseAll eng s rest (SQLite3Stmt.Finalize eng s t).2
  | .Close :: rest, t => SQLite3Stmt.releaseAll eng s rest (SQLite3Stmt.Close eng s t).2

/-! ## Tables -/

/-- The table of `m` rows made of the values of `l` taken `n` at a time, in order. -/
def rechunk {α : Type} (n : Nat) : Nat → List α → List (List α)
  | 0, _ => []
  | m + 1, l => l.take n :: rechunk n m (l.drop n)

/-! ## Theorems -/

/-! ### Configuration (C6) -/

theorem cInt_of_range (v : Int) (h1 : -2147483648 ≤ v) (h2 : v < 2147483648) : cInt v = v := by
  unfold cInt wrapSigned
  norm_num
  omega

theorem append_singleton_ne {α : Type} (t : List α) (e : α) : t ++ [e] ≠ t := by
  intro h
  have := congrArg List.length h
  simp at this

theorem Config_nil_handle (eng : Engine) (s : SQLite3) (c v : Int) (t : Trace) (h0 : s.db = 0) :
    SQLite3.Config eng s c v t = (some "database connection is not initialized", t) := by
  simp [SQLite3.Config, h0]

theorem Config_out_of_range (eng : Engine) (s : SQLite3) (c v : Int) (t : Trace) (h0 : s.db ≠ 0)
    (hr : c < 1000 ∨ 1019 < c) :
    SQLite3.Config eng s c v t = (some ("invalid configuration option: " ++ toString c), t) := by
  simp [SQLite3.Config, h0, SQLITE_DBCONFIG_MAINDBNAME, SQLITE_DBCONFIG_MAX, hr]

theorem Config_lookaside (eng : Engine) (s : SQLite3) (v : Int) (t : Trace) (h0 : s.db ≠ 0) :
    SQLite3.Config eng s 1001 v t =
      (some "sqlite3_db_config with SQLITE_DBCONFIG_LOOKASIDE is not supported", t) := by
  simp [SQLite3.Config, h0, SQLITE_DBCONFIG_MAINDBNAME, SQLITE_DBCONFIG_MAX,
    SQLITE_DBCONFIG_LOOKASIDE]

theorem Config_accepted (eng : Engine) (s : SQLite3) (c v : Int) (t : Trace) (h0 : s.db ≠ 0)
    (h1 : 1000 ≤ c) (h2 : c ≤ 1019) (h3 : c ≠ 1001) :
    (SQLite3.Config eng s c v t).2 =
      t ++ [⟨.db_config s.db (cInt c) (cInt v), eng.rc t (.db_config s.db (cInt c) (cInt v))⟩] := by
  have hr : ¬ (c < 1000 ∨ 1019 < c) := by omega
  simp only [SQLite3.Config, SQLITE_DBCONFIG_MAINDBNAME, SQLITE_DBCONFIG_MAX,
    SQLITE_DBCONFIG_LOOKASIDE, native, if_neg h0]
  norm_num
  simp only [if_neg hr, if_neg h3]
  split <;> rfl

/-- C6. `Config` makes the native configuration call exactly when the handle is not
nil, `1000 ≤ c ≤ 1019` and `c ≠ 1001` (LOOKASIDE); the call made is `sqlite3_db_config`
on the handle with the option and the value converted to C `int`.  In every other
case the trace is unchanged (no native call) and an error is returned: with a live
handle, the dedicated "not supported" error for LOOKASIDE and the "invalid
configuration option" error for an out-of-range `c` (a nil handle gives "database
connection is not initialized").  Every named option constant other than LOOKASIDE
lies in the accepted range. -/
theorem Config_validates_before_native_call (eng : Engine) (s : SQLite3) (c : Int)
    (v : Int) (t : Trace) :
    ((SQLite3.Config eng s c v t).2 ≠ t ↔ (s.db ≠ 0 ∧ 1000 ≤ c ∧ c ≤ 1019 ∧ c ≠ 1001)) ∧
    ((s.db ≠ 0 ∧ 1000 ≤ c ∧ c ≤ 1019 ∧ c ≠ 1001) →
      (SQLite3.Config eng s c v t).2 =
        t ++ [⟨.db_config s.db (cInt c) (cInt v), eng.rc t (.db_config s.db (cInt c) (cInt v))⟩]
      ∧ cInt c = c) ∧
    (¬ (s.db ≠ 0 ∧ 1000 ≤ c ∧ c ≤ 1019 ∧ c ≠ 1001) →
      (SQLite3.Config eng s c v t).2 = t ∧ (SQLite3.Config eng s c v t).1 ≠ none) ∧
    (s.db = 0 →
      (SQLite3.Config eng s c v t).1 = some "database connection is not initialized") ∧
    (s.db ≠ 0 → c = 1001 →
      (SQLite3.Config eng s c v t).1 =
        some "sqlite3_db_config with SQLITE_DBCONFIG_LOOKASIDE is not supported") ∧
    (s.db ≠ 0 → (c < 1000 ∨ 1019 < c) →
      (SQLite3.Config eng s c v t).1 =
        some ("invalid configuration option: " ++ toString c)) ∧
    (∀ k ∈ namedConfigs, k ≠ SQLITE_DBCONFIG_LOOKASIDE → 1000 ≤ k ∧ k ≤ 1019) := by
  refine ⟨?_, ?_, ?_, ?_, ?_, ?_, ?_⟩
  · constructor
    · intro h
      by_contra hacc
      apply h
      by_cases h0 : s.db = 0
      · rw [Config_nil_handle eng s c v t h0]
      · by_cases hr : c < 1000 ∨ 1019 < c
        · rw [Config_out_of_range eng s c v t h0 hr]
        · by_cases hl : c = 1001
          · subst hl
            rw [Config_lookaside eng s v t h0]
          · exact absurd ⟨h0, by omega, by omega, hl⟩ hacc
    · rintro ⟨h0, h1, h2, h3⟩
      rw [Config_accepted eng s c v t h0 h1 h2 h3]
      exact append_singleton_ne _ _
  · rintro ⟨h0, h1, h2, h3⟩
    exact ⟨Config_accepted eng s c v t h0 h1 h2 h3, cInt_of_range c (by omega) (by omega)⟩
  · intro hacc
    by_cases h0 : s.db = 0
    · rw [Config_nil_handle eng s c v t h0]
      exact ⟨rfl, by simp⟩
    · by_cases hr : c < 1000 ∨ 1019 < c
      · rw [Config_out_of_range eng s c v t h0 hr]
        exact ⟨rfl, by simp⟩
      · by_cases hl : c = 1001
        · subst hl
          rw [Config_lookaside eng s v t h0]
          exact ⟨rfl, by simp⟩
        · exact absurd ⟨h0, by omega, by omega, hl⟩ hacc
  · intro h0
    rw [Config_nil_handle eng s c v t h0]
  · intro h0 hc
    subst hc
    rw [Config_lookaside eng s v t h0]
  · intro h0 hc
    rw [Config_out_of_range eng s c v t h0 hc]
  · decide

/-! ### Transactions (C3) -/

theorem Exec_trace (eng : Engine) (s : SQLite3) (query : String) (t : Trace) :
    (SQLite3.Exec eng s query t).2 = t ++ [⟨.exec s.db query, eng.rc t (.exec s.db query)⟩] := by
  unfold SQLite3.Exec native
  simp only
  split <;> rfl

theorem Exec_ok_iff (eng : Engine) (s : SQLite3) (query : String) (t : Trace) :
    (SQLite3.Exec eng s query t).1 = none ↔ eng.rc t (.exec s.db query) = SQLITE_OK := by
  unfold SQLite3.Exec native
  simp only
  split <;> simp_all

/-- C3. After a successful `Begin` (the trace is then `t` followed by the
`BEGIN TRANSACTION` call answered `SQLITE_OK`): when `fn` returns a non-nil error
`e`, `Transaction` returns exactly `e` and adds to the trace left by `fn` the single
call `ROLLBACK`, whatever its return code (no `COMMIT`); when `fn` returns nil,
`Transaction` returns what `Commit` returns and adds to the trace left by `fn` the
single call `COMMIT` (no `ROLLBACK`). -/
theorem Transaction_rollback_or_commit (eng : Engine) (db : SQLite3)
    (fn : Trace → GoError × Trace) (t : Trace)
    (hbegin : (SQLite3.Begin eng db t).1 = none) :
    (SQLite3.Begin eng db t).2 = t ++ [⟨.exec db.db "BEGIN TRANSACTION", SQLITE_OK⟩] ∧
    (∀ e, (fn (t ++ [⟨.exec db.db "BEGIN TRANSACTION", SQLITE_OK⟩])).1 = some e →
      SQLite3.Transaction eng db fn t =
        (some e,
          (fn (t ++ [⟨.exec db.db "BEGIN TRANSACTION", SQLITE_OK⟩])).2 ++
            [⟨.exec db.db "ROLLBACK",
              eng.rc (fn (t ++ [⟨.exec db.db "BEGIN TRANSACTION", SQLITE_OK⟩])).2
                (.exec db.db "ROLLBACK")⟩])) ∧
    ((fn (t ++ [⟨.exec db.db "BEGIN TRANSACTION", SQLITE_OK⟩])).1 = none →
      SQLite3.Transaction eng db fn t =
        SQLite3.Commit eng db (fn (t ++ [⟨.exec db.db "BEGIN TRANSACTION", SQLITE_OK⟩])).2 ∧
      (SQLite3.Transaction eng db fn t).2 =
        (fn (t ++ [⟨.exec db.db "BEGIN TRANSACTION", SQLITE_OK⟩])).2 ++
          [⟨.exec db.db "COMMIT",
            eng.rc (fn (t ++ [⟨.exec db.db "BEGIN TRANSACTION", SQLITE_OK⟩])).2
              (.exec db.db "COMMIT")⟩]) := by
  have hrc : eng.rc t (.exec db.db "BEGIN TRANSACTION") = SQLITE_OK :=
    (Exec_ok_iff eng db "BEGIN TRANSACTION" t).1 hbegin
  have htr : (SQLite3.Begin eng db t).2 =
      t ++ [⟨.exec db.db "BEGIN TRANSACTION", SQLITE_OK⟩] := by
    have := Exec_trace eng db "BEGIN TRANSACTION" t
    rw [hrc] at this
    exact this
  have hb : SQLite3.Begin eng db t =
      (none, t ++ [⟨.exec db.db "BEGIN TRANSACTION", SQLITE_OK⟩]) :=
    Prod.ext hbegin htr
  refine ⟨htr, ?_, ?_⟩
  · intro e he
    unfold SQLite3.Transaction
    rw [hb]
    simp only
    generalize hfn : fn (t ++ [⟨.exec db.db "BEGIN TRANSACTION", SQLITE_OK⟩]) = r at he ⊢
    obtain ⟨r1, r2⟩ := r
    simp only at he
    subst he
    simp only [SQLite3.Rollback, Exec_trace]
  · intro hn
    have hT : SQLite3.Transaction eng db fn t =
        SQLite3.Commit eng db (fn (t ++ [⟨.exec db.db "BEGIN TRANSACTION", SQLITE_OK⟩])).2 := by
      unfold SQLite3.Transaction
      rw [hb]
      simp only
      generalize hfn : fn (t ++ [⟨.exec db.db "BEGIN TRANSACTION", SQLITE_OK⟩]) = r at hn ⊢
      obtain ⟨r1, r2⟩ := r
      simp only at hn
      subst hn
      rfl
    refine ⟨hT, ?_⟩
    rw [hT]
    simp only [SQLite3.Commit, Exec_trace]

/-- Witness for C3 on the engine `commitBusyEngine`, whose `BEGIN` succeeds: a unit
of work that fails with "boom" without touching the engine. -/
theorem Transaction_rollback_or_commit_witness :
    (SQLite3.Begin (commitBusyEngine 0) ⟨7⟩ []).1 = none ∧
    SQLite3.Transaction (commitBusyEngine 0) ⟨7⟩ (fun t => (some "boom", t)) [] =
      (some "boom", [⟨.exec 7 "BEGIN TRANSACTION", 0⟩, ⟨.exec 7 "ROLLBACK", 0⟩]) :=
  ⟨by decide,
   ((Transaction_rollback_or_commit (commitBusyEngine 0) ⟨7⟩ (fun t => (some "boom", t)) []
      (by decide)).2.1 "boom" rfl).trans (by decide)⟩

/-! ### Statement `Exec`: the type switch (C4, C10) -/

/-- C4 (the code departs from the claim).  `case float64:` of the type switch has an
empty body, and a Go `switch` does not fall through: for the one-argument list
`[float64(1.5)]` (bit pattern `0x3FF8000000000000`), on an engine where every call
succeeds, `Exec` issues no bind call at all; it only steps and resets.  More
generally the iteration for a `float64` argument leaves the trace as it is, on
every engine. -/
theorem Exec_float64_issues_no_bind :
    SQLite3Stmt.Exec (echoEngine 1) ⟨1⟩ [.float64 (.ofBits 4609434218613702656)] [] =
      .ret none [⟨.step 1, SQLITE_DONE⟩, ⟨.reset 1, SQLITE_OK⟩] ∧
    ∀ (eng : Engine) (s : SQLite3Stmt) (i : Nat) (v : Float64) (t : Trace),
      SQLite3Stmt.execArg eng s i (.float64 v) t = .ret none t :=
  ⟨by decide, fun _ _ _ _ _ => rfl⟩

/-- C10 (the code departs from the claim).  `BindBlob` takes the address of
`value[0]` before anything else: for the empty byte sequence it panics, on every
engine, at every index and without any native call, and so does `Exec` with an
empty `[]byte` as its only argument. -/
theorem BindBlob_empty_panics (eng : Engine) (s : SQLite3Stmt) (index : Int) (t : Trace) :
    SQLite3Stmt.BindBlob eng s index [] t = .panic t ∧
    SQLite3Stmt.Exec eng s [.bytes []] t = .panic t :=
  ⟨rfl, rfl⟩

/-! ### Round trips (C7, C8) -/

/-- C7 (the code departs from the claim).  `BindInt` converts its 64-bit `int` to
the 32-bit C `int`: binding `2147483648` (2^31) to parameter 1 hands `-2147483648`
to `sqlite3_bind_int`, and reading column 0 back with `ColumnInt` from an engine
that returns what it was given yields `-2147483648`, not `2147483648`. -/
theorem BindInt_ColumnInt_truncates :
    (SQLite3Stmt.BindInt (echoEngine 1) ⟨1⟩ 1 2147483648 []) =
      (none, [⟨.bind_int 1 1 (-2147483648), SQLITE_OK⟩]) ∧
    SQLite3Stmt.ColumnInt (echoEngine 1) ⟨1⟩ 0
      (SQLite3Stmt.BindInt (echoEngine 1) ⟨1⟩ 1 2147483648 []).2 = -2147483648 :=
  ⟨by decide, by decide⟩

/-- C8 (the code departs from the claim).  `BindText` hands all `len(s)` bytes to
the engine, but `ColumnText` reads the column with `C.GoString`, which stops at the
first zero byte: for the three-byte string `"a\x00b"` the engine stores the three
bytes (column size 3) and `ColumnText` returns the one-byte string `"a"`. -/
theorem BindText_ColumnText_stops_at_zero_byte :
    (SQLite3Stmt.BindText (echoEngine 1) ⟨1⟩ 1 [97, 0, 98] []) =
      (none, [⟨.bind_text 1 1 [97, 0, 98, 0] 3, SQLITE_OK⟩]) ∧
    (echoEngine 1).column_bytes
      (SQLite3Stmt.BindText (echoEngine 1) ⟨1⟩ 1 [97, 0, 98] []).2 1 0 = 3 ∧
    SQLite3Stmt.ColumnText (echoEngine 1) ⟨1⟩ 0
      (SQLite3Stmt.BindText (echoEngine 1) ⟨1⟩ 1 [97, 0, 98] []).2 = [97] :=
  ⟨by decide, by decide, by decide⟩

/-! ### Release of native handles (C9) -/

/-- C9, counterexample.  Two `Close` calls on a connection with handle 7 pass the
handle to `sqlite3_close` twice, also when the first call succeeded; `Finalize`
followed by `Close` on a statement with handle 1 passes it to `sqlite3_finalize`
twice. -/
theorem Close_twice_releases_twice :
    SQLite3.closeTimes (echoEngine 0) ⟨7⟩ 2 [] =
      [⟨.close 7, SQLITE_OK⟩, ⟨.close 7, SQLITE_OK⟩] ∧
    ¬ occurrences (.close 7) (SQLite3.closeTimes (echoEngine 0) ⟨7⟩ 2 []) ≤ 1 ∧
    ¬ occurrences (.finalize 1)
        (SQLite3Stmt.releaseAll (echoEngine 0) ⟨1⟩ [.Finalize, .Close] []) ≤ 1 :=
  ⟨by decide, by decide, by decide⟩

theorem occurrences_append (c : Call) (t u : Trace) :
    occurrences c (t ++ u) = occurrences c t + occurrences c u := by
  simp [occurrences]

theorem Close_trace (eng : Engine) (s : SQLite3) (t : Trace) :
    (SQLite3.Close eng s t).2 = t ++ [⟨.close s.db, eng.rc t (.close s.db)⟩] := by
  unfold SQLite3.Close native
  simp only
  split <;> rfl

theorem Finalize_trace (eng : Engine) (s : SQLite3Stmt) (t : Trace) :
    (SQLite3Stmt.Finalize eng s t).2 =
      t ++ [⟨.finalize s.stmt, eng.rc t (.finalize s.stmt)⟩] := by
  unfold SQLite3Stmt.Finalize native
  simp only
  split <;> rfl

theorem closeTimes_occurrences (eng : Engine) (s : SQLite3) (n : Nat) (t : Trace) :
    occurrences (.close s.db) (SQLite3.closeTimes eng s n t) =
      occurrences (.close s.db) t + n := by
  induction n generalizing t with
  | zero => rfl
  | succ n ih =>
    rw [SQLite3.closeTimes, ih, Close_trace, occurrences_append]
    simp [occurrences]
    omega

theorem releaseAll_occurrences (eng : Engine) (s : SQLite3Stmt) (ops : List StmtRelease)
    (t : Trace) :
    occurrences (.finalize s.stmt) (SQLite3Stmt.releaseAll eng s ops t) =
      occurrences (.finalize s.stmt) t + ops.length := by
  induction ops generalizing t with
  | nil => rfl
  | cons op rest ih =>
    cases op <;>
    · simp only [SQLite3Stmt.releaseAll, SQLite3Stmt.Close]
      rw [ih, Finalize_trace, occurrences_append]
      simp [occurrences]
      omega

/-- C9, amended.  There is no released flag: every `Close` call on a connection
passes the connection's handle to `sqlite3_close`, and every `Finalize` or `Close`
call on a statement passes the statement's handle to `sqlite3_finalize`, whatever
the earlier calls returned.  A sequence of `n` calls therefore adds exactly `n`
native release calls on the same handle, and the handle is passed to the engine at
most once exactly when the caller makes at most one call. -/
theorem release_once_per_call (eng : Engine) (s : SQLite3) (st : SQLite3Stmt) (n : Nat)
    (ops : List StmtRelease) (t : Trace) :
    occurrences (.close s.db) (SQLite3.closeTimes eng s n t) =
      occurrences (.close s.db) t + n ∧
    occurrences (.finalize st.stmt) (SQLite3Stmt.releaseAll eng st ops t) =
      occurrences (.finalize st.stmt) t + ops.length ∧
    (occurrences (.close s.db) (SQLite3.closeTimes eng s n []) ≤ 1 ↔ n ≤ 1) ∧
    (occurrences (.finalize st.stmt) (SQLite3Stmt.releaseAll eng st ops []) ≤ 1 ↔
      ops.length ≤ 1) := by
  refine ⟨closeTimes_occurrences eng s n t, releaseAll_occurrences eng st ops t, ?_, ?_⟩
  · rw [closeTimes_occurrences]
    simp [occurrences]
  · rw [releaseAll_occurrences]
    simp [occurrences]

/-! ### The bulk loader (C1, C2) -/

/-- C1 (the code departs from the claim).  `bulk_insert` drops the return codes of
the `BEGIN TRANSACTION` and `COMMIT` calls and returns `SQLITE_OK` once the last row
is stepped: on an engine whose `COMMIT` fails with `SQLITE_BUSY`, `BulkInsert` of the
one-row table `[["x"]]` into a one-placeholder template returns nil, although the
only `COMMIT` call of the trace failed and the row is not committed. -/
theorem BulkInsert_nil_although_commit_failed :
    SQLite3.BulkInsert (commitBusyEngine 1) ⟨7⟩ "INSERT INTO t VALUES (?)" [[[120]]] [] =
      .ret none
        [⟨.prepare 7 "INSERT INTO t VALUES (?)", SQLITE_OK⟩,
         ⟨.exec 7 "BEGIN TRANSACTION", SQLITE_OK⟩,
         ⟨.bind_text 1 1 [120, 0] (-1), SQLITE_OK⟩,
         ⟨.step 1, SQLITE_DONE⟩,
         ⟨.reset 1, SQLITE_OK⟩,
         ⟨.finalize 1, SQLITE_OK⟩,
         ⟨.exec 7 "COMMIT", SQLITE_BUSY⟩] := by
  decide

/-- C2, counterexample.  A template with two placeholders and the table
`[["a","b"], ["c","d","e"], ["f","g"]]`, whose row 1 has three entries, on an engine
where every call succeeds: `BulkInsert` returns nil, not an error; three rows are
stepped to completion, holding `("a","b")`, `("c","d")`, `("e","f")`, and the
transaction is committed. -/
theorem BulkInsert_accepts_ragged_table :
    SQLite3.BulkInsert (echoEngine 2) ⟨7⟩ "INSERT INTO t VALUES (?, ?)"
        [[[97], [98]], [[99], [100], [101]], [[102], [103]]] [] =
      .ret none
        [⟨.prepare 7 "INSERT INTO t VALUES (?, ?)", SQLITE_OK⟩,
         ⟨.exec 7 "BEGIN TRANSACTION", SQLITE_OK⟩,
         ⟨.bind_text 1 1 [97, 0] (-1), SQLITE_OK⟩,
         ⟨.bind_text 1 2 [98, 0] (-1), SQLITE_OK⟩,
         ⟨.step 1, SQLITE_DONE⟩,
         ⟨.reset 1, SQLITE_OK⟩,
         ⟨.bind_text 1 1 [99, 0] (-1), SQLITE_OK⟩,
         ⟨.bind_text 1 2 [100, 0] (-1), SQLITE_OK⟩,
         ⟨.step 1, SQLITE_DONE⟩,
         ⟨.reset 1, SQLITE_OK⟩,
         ⟨.bind_text 1 1 [101, 0] (-1), SQLITE_OK⟩,
         ⟨.bind_text 1 2 [102, 0] (-1), SQLITE_OK⟩,
         ⟨.step 1, SQLITE_DONE⟩,
         ⟨.reset 1, SQLITE_OK⟩,
         ⟨.finalize 1, SQLITE_OK⟩,
         ⟨.exec 7 "COMMIT", SQLITE_OK⟩] ∧
    ¬ ∃ (e : String) (t : Trace),
        SQLite3.BulkInsert (echoEngine 2) ⟨7⟩ "INSERT INTO t VALUES (?, ?)"
          [[[97], [98]], [[99], [100], [101]], [[102], [103]]] [] = .ret (some e) t := by
  have h : SQLite3.BulkInsert (echoEngine 2) ⟨7⟩ "INSERT INTO t VALUES (?, ?)"
        [[[97], [98]], [[99], [100], [101]], [[102], [103]]] [] =
      .ret none
        [⟨.prepare 7 "INSERT INTO t VALUES (?, ?)", SQLITE_OK⟩,
         ⟨.exec 7 "BEGIN TRANSACTION", SQLITE_OK⟩,
         ⟨.bind_text 1 1 [97, 0] (-1), SQLITE_OK⟩,
         ⟨.bind_text 1 2 [98, 0] (-1), SQLITE_OK⟩,
         ⟨.step 1, SQLITE_DONE⟩,
         ⟨.reset 1, SQLITE_OK⟩,
         ⟨.bind_text 1 1 [99, 0] (-1), SQLITE_OK⟩,
         ⟨.bind_text 1 2 [100, 0] (-1), SQLITE_OK⟩,
         ⟨.step 1, SQLITE_DONE⟩,
         ⟨.reset 1, SQLITE_OK⟩,
         ⟨.bind_text 1 1 [101, 0] (-1), SQLITE_OK⟩,
         ⟨.bind_text 1 2 [102, 0] (-1), SQLITE_OK⟩,
         ⟨.step 1, SQLITE_DONE⟩,
         ⟨.reset 1, SQLITE_OK⟩,
         ⟨.finalize 1, SQLITE_OK⟩,
         ⟨.exec 7 "COMMIT", SQLITE_OK⟩] := by
    decide
  refine ⟨h, ?_⟩
  rintro ⟨e, t, he⟩
  rw [h] at he
  cases he

theorem rechunk_length {α : Type} (n m : Nat) (l : List α) : (rechunk n m l).length = m := by
  induction m generalizing l with
  | zero => rfl
  | succ m ih => simp [rechunk, ih]

theorem rechunk_flatten {α : Type} (n m : Nat) (l : List α) :
    (rechunk n m l).flatten = l.take (m * n) := by
  induction m generalizing l with
  | zero => simp [rechunk]
  | succ m ih =>
    rw [rechunk, List.flatten_cons, ih, Nat.succ_mul, Nat.add_comm (m * n) n, List.take_add]

theorem rechunk_row_length {α : Type} (n m : Nat) (l : List α) (h : m * n ≤ l.length) :
    ∀ row ∈ rechunk n m l, row.length = n := by
  induction m generalizing l with
  | zero => simp [rechunk]
  | succ m ih =>
    have h1 : n + m * n ≤ l.length := by
      rw [Nat.succ_mul] at h
      omega
    intro row hrow
    rw [rechunk, List.mem_cons] at hrow
    rcases hrow with rfl | hrow
    · rw [List.length_take]
      omega
    · apply ih (l.drop n) _ row hrow
      rw [List.length_drop]
      omega

theorem bulk_insert_cols_congr (eng : Engine) (db stmt : Ptr) (v1 v2 : List Bytes)
    (i num_cols : Nat) (fuel : Nat) :
    ∀ (j : Nat) (t : Trace), (∀ k, k < i * num_cols + j + fuel → v1[k]? = v2[k]?) →
      bulk_insert_cols eng db stmt v1 i num_cols j fuel t =
        bulk_insert_cols eng db stmt v2 i num_cols j fuel t := by
  induction fuel with
  | zero => intro j t _; rfl
  | succ fuel ih =>
    intro j t h
    have hk : v1[i * num_cols + j]? = v2[i * num_cols + j]? := h _ (by omega)
    have hrec : ∀ t1, bulk_insert_cols eng db stmt v1 i num_cols (j + 1) fuel t1 =
        bulk_insert_cols eng db stmt v2 i num_cols (j + 1) fuel t1 :=
      fun t1 => ih (j + 1) t1 (fun k hk1 => h k (by omega))
    simp only [bulk_insert_cols, hk, hrec]

theorem bulk_insert_rows_congr (eng : Engine) (db : Ptr) (sql : String) (stmt : Ptr)
    (v1 v2 : List Bytes) (fuel : Nat) :
    ∀ (i : Nat) (t : Trace),
      (∀ k, k < (i + fuel) * eng.bind_parameter_count sql → v1[k]? = v2[k]?) →
      bulk_insert_rows eng db sql stmt v1 i fuel t =
        bulk_insert_rows eng db sql stmt v2 i fuel t := by
  induction fuel with
  | zero => intro i t _; rfl
  | succ fuel ih =>
    intro i t h
    have hcols : bulk_insert_cols eng db stmt v1 i (eng.bind_parameter_count sql) 0
          (eng.bind_parameter_count sql) t =
        bulk_insert_cols eng db stmt v2 i (eng.bind_parameter_count sql) 0
          (eng.bind_parameter_count sql) t := by
      apply bulk_insert_cols_congr
      intro k hk
      apply h
      have : (i + (fuel + 1)) * eng.bind_parameter_count sql =
          i * eng.bind_parameter_count sql + eng.bind_parameter_count sql +
            fuel * eng.bind_parameter_count sql := by ring
      omega
    have hrec : ∀ t1, bulk_insert_rows eng db sql stmt v1 (i + 1) fuel t1 =
        bulk_insert_rows eng db sql stmt v2 (i + 1) fuel t1 := by
      intro t1
      apply ih
      intro k hk
      apply h
      have : i + 1 + fuel = i + (fuel + 1) := by omega
      rw [← this]
      exact hk
    simp only [bulk_insert_rows, hcols, hrec]

theorem bulk_insert_congr (eng : Engine) (db : Ptr) (sql : String) (num_rows : Int)
    (v1 v2 : List Bytes) (t : Trace)
    (h : ∀ k, k < num_rows.toNat * eng.bind_parameter_count sql → v1[k]? = v2[k]?) :
    bulk_insert eng db sql num_rows v1 t = bulk_insert eng db sql num_rows v2 t := by
  have hrows : ∀ stmt t2, bulk_insert_rows eng db sql stmt v1 0 num_rows.toNat t2 =
      bulk_insert_rows eng db sql stmt v2 0 num_rows.toNat t2 := by
    intro stmt t2
    apply bulk_insert_rows_congr
    intro k hk
    apply h
    simpa using hk
  simp only [bulk_insert, hrows]

theorem cInt_toNat_le (m : Nat) : (cInt (m : Int)).toNat ≤ m := by
  unfold cInt wrapSigned
  norm_num
  omega

theorem BulkInsert_error_text (eng : Engine) (s : SQLite3) (query : String)
    (values : List (List Bytes)) (t : Trace) (e : String) (t1 : Trace)
    (h : SQLite3.BulkInsert eng s query values t = .ret (some e) t1) :
    e = "bulk insert failed: " ++ eng.errmsg t1 := by
  unfold SQLite3.BulkInsert at h
  split at h
  · cases h
  · simp only at h
    split at h
    · cases h
    · split at h
      · cases h
      · split at h
        · cases h
          rfl
        · cases h

theorem BulkInsert_congr (eng : Engine) (s : SQLite3) (query : String)
    (v1 v2 : List (List Bytes)) (t : Trace) (hlen : v1.length = v2.length)
    (hne1 : v1.flatten ≠ []) (hne2 : v2.flatten ≠ [])
    (h : ∀ k, k < v1.length * eng.bind_parameter_count query →
      v1.flatten[k]? = v2.flatten[k]?) :
    SQLite3.BulkInsert eng s query v1 t = SQLite3.BulkInsert eng s query v2 t := by
  have hb : bulk_insert eng s.db query (cInt v1.length) (v1.flatten.map CString) t =
      bulk_insert eng s.db query (cInt v1.length) (v2.flatten.map CString) t := by
    apply bulk_insert_congr
    intro k hk
    have hk1 : k < v1.length * eng.bind_parameter_count query :=
      lt_of_lt_of_le hk (Nat.mul_le_mul_right _ (cInt_toNat_le v1.length))
    rw [List.getElem?_map, List.getElem?_map, h k hk1]
  unfold SQLite3.BulkInsert
  rw [← hlen]
  obtain ⟨a1, r1, h1⟩ := List.exists_cons_of_ne_nil hne1
  obtain ⟨a2, r2, h2⟩ := List.exists_cons_of_ne_nil hne2
  rw [h1, h2] at hb
  simp only [h1, h2, List.map_cons] at hb ⊢
  rw [hb]

/-- C2, amended.  `BulkInsert` never looks at the length of a row and reports no
row index: for a template with `N > 0` placeholders and a table of `M` rows whose
flattened values number at least `M * N`, it behaves (same result, same native
calls) exactly as on the well-formed `M × N` table made of the first `M * N`
flattened values taken `N` at a time, whether or not every row has `N` entries; and
an error it returns is "bulk insert failed: " followed by the engine's message. -/
theorem BulkInsert_ignores_row_lengths (eng : Engine) (s : SQLite3) (query : String)
    (values : List (List Bytes)) (t : Trace)
    (hN : 0 < eng.bind_parameter_count query)
    (hlen : values.length * eng.bind_parameter_count query ≤ values.flatten.length) :
    SQLite3.BulkInsert eng s query values t =
      SQLite3.BulkInsert eng s query
        (rechunk (eng.bind_parameter_count query) values.length values.flatten) t ∧
    (rechunk (eng.bind_parameter_count query) values.length values.flatten).length =
      values.length ∧
    (∀ row ∈ rechunk (eng.bind_parameter_count query) values.length values.flatten,
      row.length = eng.bind_parameter_count query) ∧
    (∀ (e : String) (t1 : Trace), SQLite3.BulkInsert eng s query values t = .ret (some e) t1 →
      e = "bulk insert failed: " ++ eng.errmsg t1) := by
  refine ⟨?_, rechunk_length _ _ _, rechunk_row_length _ _ _ hlen,
    fun e t1 h => BulkInsert_error_text eng s query values t e t1 h⟩
  cases hv : values with
  | nil => rfl
  | cons row rest =>
    rw [← hv]
    have hM : 0 < values.length := by rw [hv]; simp
    have hpos : 0 < values.length * eng.bind_parameter_count query := Nat.mul_pos hM hN
    apply BulkInsert_congr
    · rw [rechunk_length]
    · intro h0
      rw [h0, List.length_nil] at hlen
      omega
    · rw [rechunk_flatten]
      intro h0
      have h1 := congrArg List.length h0
      rw [List.length_take, List.length_nil, Nat.min_eq_left hlen] at h1
      omega
    · intro k hk
      rw [rechunk_flatten, List.getElem?_take_of_lt hk]

/-- Witness for C2 (amended): the two-placeholder template and the ragged table of
the counterexample. -/
theorem BulkInsert_ignores_row_lengths_witness :
    SQLite3.BulkInsert (echoEngine 2) ⟨7⟩ "INSERT INTO t VALUES (?, ?)"
        [[[97], [98]], [[99], [100], [101]], [[102], [103]]] [] =
      SQLite3.BulkInsert (echoEngine 2) ⟨7⟩ "INSERT INTO t VALUES (?, ?)"
        [[[97], [98]], [[99], [100]], [[101], [102]]] [] :=
  (BulkInsert_ignores_row_lengths (echoEngine 2) ⟨7⟩ "INSERT INTO t VALUES (?, ?)"
    [[[97], [98]], [[99], [100], [101]], [[102], [103]]] [] (by decide) (by decide)).1

/-! ### Statement `Exec`: unsupported types (C5) -/

theorem ofPair_bind_shape (eng : Engine) (c : Call) (t t1 : Trace) (err : GoError)
    (h : Outcome.ofPair
      (if (native eng t c).1 ≠ SQLITE_OK then (err, (native eng t c).2)
        else ((none : GoError), (native eng t c).2)) = .ret none t1) :
    t1 = t ++ [⟨c, eng.rc t c⟩] := by
  split at h <;>
  · simp only [Outcome.ofPair, Outcome.ret.injEq] at h
    rw [← h.2]
    rfl

theorem execArg_continue (eng : Engine) (s : SQLite3Stmt) (i : Nat) (a : Arg) (t t1 : Trace)
    (h : SQLite3Stmt.execArg eng s i a t = .ret none t1) :
    a.supported = true ∧
    (t1 = t ∨ ∃ e : Event, t1 = t ++ [e] ∧
      bindTarget e.call = some (s.stmt, cInt ((i : Int) + 1))) := by
  cases a with
  | int v =>
    exact ⟨rfl, Or.inr ⟨_, ofPair_bind_shape eng _ t t1 _ h, rfl⟩⟩
  | int64 v =>
    exact ⟨rfl, Or.inr ⟨_, ofPair_bind_shape eng _ t t1 _ h, rfl⟩⟩
  | float64 v =>
    simp only [SQLite3Stmt.execArg, Outcome.ret.injEq, true_and] at h
    exact ⟨rfl, Or.inl h.symm⟩
  | float32 v =>
    exact ⟨rfl, Or.inr ⟨_, ofPair_bind_shape eng _ t t1 _ h, rfl⟩⟩
  | string v =>
    exact ⟨rfl, Or.inr ⟨_, ofPair_bind_shape eng _ t t1 _ h, rfl⟩⟩
  | bytes v =>
    refine ⟨rfl, Or.inr ?_⟩
    cases v with
    | nil => simp [SQLite3Stmt.execArg, SQLite3Stmt.BindBlob] at h
    | cons b bs =>
      simp only [SQLite3Stmt.execArg, SQLite3Stmt.BindBlob] at h
      split at h
      · simp [SQLite3Stmt.error] at h
      · simp only [Outcome.ret.injEq, true_and] at h
        exact ⟨_, h.symm, rfl⟩
  | nil =>
    exact ⟨rfl, Or.inr ⟨_, ofPair_bind_shape eng _ t t1 _ h, rfl⟩⟩
  | bool v =>
    exact ⟨rfl, Or.inr ⟨_, ofPair_bind_shape eng _ t t1 _ h, rfl⟩⟩
  | other typeName =>
    simp [SQLite3Stmt.execArg] at h

theorem execArgs_continue (eng : Engine) (s : SQLite3Stmt) (pre : List Arg) :
    ∀ (i : Nat) (t tk : Trace), SQLite3Stmt.execArgs eng s i pre t = .ret none tk →
      (∀ a ∈ pre, a.supported = true) ∧
      ∃ evs : List Event, tk = t ++ evs ∧ evs.length ≤ pre.length ∧
        ∀ e ∈ evs, ∃ j, i ≤ j ∧ j < i + pre.length ∧
          bindTarget e.call = some (s.stmt, cInt ((j : Int) + 1)) := by
  induction pre with
  | nil =>
    intro i t tk h
    simp only [SQLite3Stmt.execArgs, Outcome.ret.injEq, true_and] at h
    exact ⟨by simp, [], by simp [h], by simp, by simp⟩
  | cons a rest ih =>
    intro i t tk h
    rw [SQLite3Stmt.execArgs] at h
    split at h
    next t1 h1 =>
      obtain ⟨hs, hshape⟩ := execArg_continue eng s i a t t1 h1
      obtain ⟨hrest, evs, hevs, hlen, hall⟩ := ih (i + 1) t1 tk h
      refine ⟨?_, ?_⟩
      · intro b hb
        rcases List.mem_cons.1 hb with rfl | hb
        · exact hs
        · exact hrest b hb
      · rcases hshape with rfl | ⟨e, rfl, he⟩
        · refine ⟨evs, hevs, by simp; omega, ?_⟩
          intro e he
          obtain ⟨j, h1, h2, h3⟩ := hall e he
          exact ⟨j, by omega, by simp; omega, h3⟩
        · refine ⟨e :: evs, by simp [hevs], by simp; omega, ?_⟩
          intro e1 he1
          rcases List.mem_cons.1 he1 with rfl | he1
          · exact ⟨i, le_refl _, by simp, he⟩
          · obtain ⟨j, h1, h2, h3⟩ := hall e1 he1
            exact ⟨j, by omega, by simp; omega, h3⟩
    next r hr =>
      rw [h] at hr
      exact absurd rfl (hr tk)

theorem execArgs_append_other (eng : Engine) (s : SQLite3Stmt) (pre : List Arg)
    (typeName : String) (post : List Arg) :
    ∀ (i : Nat) (t tk : Trace), SQLite3Stmt.execArgs eng s i pre t = .ret none tk →
      SQLite3Stmt.execArgs eng s i (pre ++ .other typeName :: post) t =
        .ret (some ("unsupported type " ++ typeName)) tk := by
  induction pre with
  | nil =>
    intro i t tk h
    simp only [SQLite3Stmt.execArgs, Outcome.ret.injEq, true_and] at h
    subst h
    simp [SQLite3Stmt.execArgs, SQLite3Stmt.execArg]
  | cons a rest ih =>
    intro i t tk h
    rw [SQLite3Stmt.execArgs] at h
    rw [List.cons_append, SQLite3Stmt.execArgs]
    split at h
    next t1 h1 =>
      exact ih (i + 1) t1 tk h
    next r hr =>
      rw [h] at hr
      exact absurd rfl (hr tk)

/-- C5. When the binding loop over the arguments `0..k-1` (the list `pre`, `k` its
length) goes through without an error, leaving the trace `tk`, and argument `k` is of
a type outside the supported set, `Exec` returns the error "unsupported type "
followed by the name of the offending type, with the trace `tk`: the arguments before
`k` are all of supported types, every native call added is a bind on the statement at
a placeholder index `i + 1` with `i < k` (at most one for each), so nothing is bound
for position `k` or a later one, and the statement is neither stepped nor reset. -/
theorem Exec_rejects_unsupported_type (eng : Engine) (s : SQLite3Stmt) (pre : List Arg)
    (typeName : String) (post : List Arg) (t tk : Trace)
    (hbind : SQLite3Stmt.execArgs eng s 0 pre t = .ret none tk) :
    SQLite3Stmt.Exec eng s (pre ++ .other typeName :: post) t =
      .ret (some ("unsupported type " ++ typeName)) tk ∧
    (∀ a ∈ pre, a.supported = true) ∧
    ∃ evs : List Event, tk = t ++ evs ∧ evs.length ≤ pre.length ∧
      ∀ e ∈ evs,
        (∃ i, i < pre.length ∧ bindTarget e.call = some (s.stmt, cInt ((i : Int) + 1))) ∧
        e.call ≠ .step s.stmt ∧ e.call ≠ .reset s.stmt := by
  obtain ⟨hs, evs, hevs, hlen, hall⟩ := execArgs_continue eng s pre 0 t tk hbind
  refine ⟨?_, hs, evs, hevs, hlen, ?_⟩
  · unfold SQLite3Stmt.Exec
    rw [execArgs_append_other eng s pre typeName post 0 t tk hbind]
  · intro e he
    obtain ⟨j, _, h2, h3⟩ := hall e he
    refine ⟨⟨j, by omega, h3⟩, ?_, ?_⟩
    · intro hc
      rw [hc] at h3
      simp [bindTarget] at h3
    · intro hc
      rw [hc] at h3
      simp [bindTarget] at h3

/-- Witness for C5: `Exec("x", false, uint(3), 4)` on an engine where every bind
succeeds; the two binds of positions 0 and 1 are issued, then the error. -/
theorem Exec_rejects_unsupported_type_witness :
    SQLite3Stmt.execArgs (echoEngine 4) ⟨1⟩ 0 [.string [120], .bool false] [] =
      .ret none [⟨.bind_text 1 1 [120, 0] 1, SQLITE_OK⟩, ⟨.bind_int 1 2 0, SQLITE_OK⟩] ∧
    SQLite3Stmt.Exec (echoEngine 4) ⟨1⟩ [.string [120], .bool false, .other "uint", .int 4] [] =
      .ret (some "unsupported type uint")
        [⟨.bind_text 1 1 [120, 0] 1, SQLITE_OK⟩, ⟨.bind_int 1 2 0, SQLITE_OK⟩] :=
  ⟨by decide,
   (Exec_rejects_unsupported_type (echoEngine 4) ⟨1⟩ [.string [120], .bool false] "uint"
      [.int 4] [] [⟨.bind_text 1 1 [120, 0] 1, SQLITE_OK⟩, ⟨.bind_int 1 2 0, SQLITE_OK⟩]
      (by decide)).1⟩

end Sqlite3go
